import Mathlib

/-!
Verification development for the redun k8s cluster-executor engine.

The repository ships the test suite (`redun/tests/test_k8s.py`) and an example
workflow for the k8s executor; the executor module itself
(`redun/executors/k8s.py` together with its helpers in
`redun/executors/aws_utils.py`) is not part of the source tree here.  The
definitions below therefore model that missing module from the
natural-language specification, keeping the observable behaviour pinned down
by the test suite: job naming and hash extraction, scratch paths, the oneshot
command line, inflight-job reconciliation, lazy code packaging, the
submission state machine and the terminal-status processing of the polling
loop.
-/

/-! ## Job identity -/

/-- Modelled from the spec: `make_job_name(prefix, eval_hash)` /
`get_k8s_job_name` — deterministic name for a remote job, the configured
name base followed by a dash and the eval hash (test:
`get_k8s_job_name("my-job-prefix", h)` starts with the base and ends with
`h`; the executor submits under names such as `redun-job-eval_hash`). -/
def get_k8s_job_name (base evalHash : String) : String :=
  base ++ "-" ++ evalHash

/-- Word characters recognised inside an embedded hash: alphanumerics and
underscore (the eval hashes appearing in the tests are hex digits,
`eval_hash`, `123456789`). -/
def isWordChar (c : Char) : Bool :=
  c.isAlphanum || c == '_'

/-- Tail of a character list after its last dash, or `none` when the list
has no dash. -/
def lastDashSplit : List Char → Option (List Char)
  | [] => none
  | c :: rest =>
    match lastDashSplit rest with
    | some t => some t
    | none => if c = '-' then some rest else none

/-- Modelled from the spec: `extract_hash` / `get_hash_from_job_name` — the
inverse of `get_k8s_job_name`.  Returns the segment after the final dash
when it is a nonempty run of word characters, and `none` ("no hash", not an
error) otherwise, so that unrelated jobs sharing a name prefix are silently
ignored. -/
def get_hash_from_job_name (jobName : String) : Option String :=
  match lastDashSplit jobName.data with
  | none => none
  | some t =>
    if !t.isEmpty && t.all isWordChar then some (String.mk t) else none

/-! ## Data model -/

/-- Backend-reported job status (pending/running collapse to `running`;
terminal statuses are `succeeded` and `failed`). -/
inductive K8sStatus where
  | running
  | succeeded
  | failed
deriving DecidableEq

/-- A remote job as represented by the backend: backend-assigned `uid`,
derived `name` (embeds the eval hash) and backend-native status. -/
structure RJob where
  uid : String
  name : String
  status : K8sStatus
deriving DecidableEq

/-- Per-submission resource overrides; `none` means "use the default". -/
structure TaskOptions where
  vcpus : Option Nat
  gpus : Option Nat
  memory : Option Nat
  retries : Option Nat
  role : Option String
deriving DecidableEq

/-- No overrides: every resource option left at its default. -/
def TaskOptions.empty : TaskOptions :=
  { vcpus := none, gpus := none, memory := none, retries := none, role := none }

/-- An Execution: a logical request to run one task, owned by the scheduler.
`loadModule`/`importPath` describe where the task's code lives (used by the
oneshot command). -/
structure RedunJob where
  id : String
  taskName : String
  loadModule : String
  importPath : Option String
  evalHash : String
  options : TaskOptions
deriving DecidableEq

/-- Modelled from the spec: resolved resource options for a backend
submission call; defaults are vcpus=1, gpus=0, memory=4, retries=1,
role=None (pinned by `test_executor`). -/
structure ResolvedOptions where
  vcpus : Nat
  gpus : Nat
  memory : Nat
  retries : Nat
  role : Option String
deriving DecidableEq

/-- Apply the default for every option the Execution did not override. -/
def resolveOptions (o : TaskOptions) : ResolvedOptions :=
  { vcpus := o.vcpus.getD 1
    gpus := o.gpus.getD 0
    memory := o.memory.getD 4
    retries := o.retries.getD 1
    role := o.role }

/-- Modelled from the spec: the fixed label set attached to every submitted
remote job (orchestrator job id, task name, execution id, user and project
tags). -/
def k8sLabelsFor (job : RedunJob) : List (String × String) :=
  [("redun_aws_user", ""),
   ("redun_execution_id", ""),
   ("redun_job_id", job.id),
   ("redun_project", ""),
   ("redun_task_name", job.taskName)]

/-- One recorded backend submission call: the keyword arguments of
`k8s_submit`. -/
structure SubmitCall where
  image : String
  jobName : String
  opts : ResolvedOptions
  k8sLabels : List (String × String)
deriving DecidableEq

/-! ## Scratch store -/

/-- Join two path segments, inserting a slash unless the left part already
ends in one (os.path.join behaviour for the paths used here). -/
def pathJoin (a b : String) : String :=
  match a.data.getLast? with
  | some '/' => a ++ b
  | _ => a ++ "/" ++ b

/-- Modelled from the spec: `get_job_scratch_file` — the deterministic
scratch URI `{scratch_root}/jobs/{eval_hash}/{filename}`. -/
def get_job_scratch_file (scratchRoot evalHash fileName : String) : String :=
  pathJoin (pathJoin (pathJoin scratchRoot "jobs") evalHash) fileName

/-- A deserialized scratch object: either a task output value or a
structured (exception kind, message, traceback) error pair. -/
inductive ScratchObj where
  | outputVal (v : Int)
  | errorPair (kind msg tb : String)
deriving DecidableEq

/-- The scratch store, as a map from URI to stored object. -/
def Scratch : Type := List (String × ScratchObj)

/-! ## Code packaging configuration -/

/-- Parsed `code_package` configuration: disabled, or enabled with a list
of include patterns. -/
inductive CodePackage where
  | disabled
  | enabled (includes : List String)
deriving DecidableEq

/-- Split a pattern string on spaces, dropping empty tokens (the shell-style
split applied to `code_includes`). -/
def splitWordsAux : List Char → List Char → List String
  | [], w => if w.isEmpty then [] else [String.mk w.reverse]
  | c :: cs, w =>
    if c = ' ' then
      if w.isEmpty then splitWordsAux cs []
      else String.mk w.reverse :: splitWordsAux cs []
    else splitWordsAux cs (c :: w)

/-- Split a configuration string into whitespace-separated patterns. -/
def splitWords (s : String) : List String :=
  splitWordsAux s.data []

/-- Look up a key in a raw configuration section, with a fallback value. -/
def configLookup (cfg : List (String × String)) (key dflt : String) : String :=
  (cfg.lookup key).getD dflt

/-- Modelled from the spec: `parse_code_package_config` — `code_package` is
a boolean (default true) enabling code bundling; when enabled, the
`code_includes` patterns (default `**/*.py`) filter the bundle. -/
def parse_code_package_config (cfg : List (String × String)) : CodePackage :=
  if configLookup cfg "code_package" "True" = "False" then CodePackage.disabled
  else CodePackage.enabled (splitWords (configLookup cfg "code_includes" "**/*.py"))

/-! ## Inflight reconciliation -/

/-- Modelled from the spec: `gather_inflight_jobs` — extract the eval hash
from each backend job's name and build the preexisting-jobs map
`eval_hash → backend uid`; jobs whose name has no extractable hash are
silently dropped. -/
def gather_inflight_jobs (backendJobs : List RJob) : List (String × String) :=
  backendJobs.filterMap fun j =>
    (get_hash_from_job_name j.name).map fun h => (h, j.uid)

/-! ## Executor state machine -/

/-- The job-name base used by the executor for its own submissions
(`redun-job-eval_hash` in the tests). -/
def redunJobNameBase : String := "redun-job"

/-- Modelled from the spec: the per-instance state of the `K8SExecutor`:
configuration, the idempotence flag for `start`, the call counters the
tests observe, the lazily cached code reference, the preexisting-jobs map,
the arrayer's pending buffer, the tracked (MONITORING) jobs keyed by
backend uid, and the record of backend submission calls. -/
structure K8SExecutor where
  image : String
  scratchRoot : String
  codePackage : CodePackage
  started : Bool
  getJobsCallCount : Nat
  packageCodeCallCount : Nat
  k8sSubmitCallCount : Nat
  codeFile : Option String
  preexistingK8sJobs : List (String × String)
  arrayerPending : List RedunJob
  trackedJobs : List (String × RedunJob)
  submitted : List SubmitCall
deriving DecidableEq

/-- Modelled from the spec: construct an executor from a raw configuration
section (`image`, `s3_scratch`, `code_package`, `code_includes`); all
counters start at zero and all maps empty. -/
def K8SExecutor.fromConfig (cfg : List (String × String)) : K8SExecutor :=
  { image := configLookup cfg "image" ""
    scratchRoot := configLookup cfg "s3_scratch" ""
    codePackage := parse_code_package_config cfg
    started := false
    getJobsCallCount := 0
    packageCodeCallCount := 0
    k8sSubmitCallCount := 0
    codeFile := none
    preexistingK8sJobs := []
    arrayerPending := []
    trackedJobs := []
    submitted := [] }

/-- Modelled from the spec: `start()` — runs the Inflight Reconciler exactly
once (one `get_jobs` backend listing call, building the preexisting-jobs
map); guarded so a second call does not redo reconciliation. -/
def K8SExecutor.start (s : K8SExecutor) (backendJobs : List RJob) : K8SExecutor :=
  if s.started then s
  else
    { s with
      started := true
      getJobsCallCount := s.getJobsCallCount + 1
      preexistingK8sJobs := gather_inflight_jobs backendJobs }

/-- Modelled from the spec: lazy code packaging — on the first call (when
enabled) package and cache the code reference; afterwards reuse the cache
without packaging again. -/
def K8SExecutor.ensurePackaged (s : K8SExecutor) (codeRef : String) : K8SExecutor :=
  match s.codePackage with
  | CodePackage.disabled => s
  | CodePackage.enabled _ =>
    match s.codeFile with
    | some _ => s
    | none =>
      { s with
        codeFile := some codeRef
        packageCodeCallCount := s.packageCodeCallCount + 1 }

/-- Modelled from the spec: `submit(execution)` — ensure code is packaged,
then consult the preexisting-jobs map: when the eval hash is found there,
monitor the discovered remote job directly (no new backend submission);
otherwise enqueue the Execution into the arrayer's pending buffer. -/
def K8SExecutor.submit (s : K8SExecutor) (job : RedunJob) (codeRef : String) : K8SExecutor :=
  let s1 := s.ensurePackaged codeRef
  match s1.preexistingK8sJobs.lookup job.evalHash with
  | some uid => { s1 with trackedJobs := s1.trackedJobs ++ [(uid, job)] }
  | none => { s1 with arrayerPending := s1.arrayerPending ++ [job] }

/-- Submit a list of Executions one after the other. -/
def K8SExecutor.submitMany (s : K8SExecutor) (jobs : List RedunJob) (codeRef : String) :
    K8SExecutor :=
  match jobs with
  | [] => s
  | j :: rest => (s.submit j codeRef).submitMany rest codeRef

/-- The backend submission call the arrayer issues for one pending
Execution: image, derived job name, resolved resource options and the fixed
label set. -/
def mkSubmitCall (s : K8SExecutor) (job : RedunJob) : SubmitCall :=
  { image := s.image
    jobName := get_k8s_job_name redunJobNameBase job.evalHash
    opts := resolveOptions job.options
    k8sLabels := k8sLabelsFor job }

/-- Modelled from the spec: the arrayer flushing its pending buffer — one
backend submission per pending Execution (in arrival order), each becoming
tracked under the backend-assigned uid. -/
def K8SExecutor.flushPending (s : K8SExecutor) (uids : List String) : K8SExecutor :=
  { s with
    arrayerPending := []
    k8sSubmitCallCount := s.k8sSubmitCallCount + s.arrayerPending.length
    submitted := s.submitted ++ s.arrayerPending.map (mkSubmitCall s)
    trackedJobs := s.trackedJobs ++ uids.zip s.arrayerPending }

/-! ## Polling loop: terminal status processing -/

/-- A delivery from the executor back to the scheduler: a result, a
structured application error, or a synthesized infrastructure failure. -/
inductive SchedulerMsg where
  | doneJob (jobId : String) (result : Int)
  | appError (jobId : String) (errKind errMsg : String)
  | infraError (jobId : String) (errMsg : String)
deriving DecidableEq

/-- Modelled from the spec: processing one backend-reported job in the
polling loop.  Untracked or non-terminal jobs are no-ops; `succeeded` reads
and deserializes the output scratch object and delivers the result;
`failed` reads the error scratch object and delivers a structured
application error when one exists, otherwise a synthesized infrastructure
failure.  Delivered jobs are dropped from tracking. -/
def process_job_status (s : K8SExecutor) (scratch : Scratch) (kjob : RJob) :
    Option SchedulerMsg × K8SExecutor :=
  match s.trackedJobs.lookup kjob.uid with
  | none => (none, s)
  | some rjob =>
    match kjob.status with
    | K8sStatus.running => (none, s)
    | K8sStatus.succeeded =>
      let dropped := { s with trackedJobs := s.trackedJobs.filter (fun p => p.1 ≠ kjob.uid) }
      match scratch.lookup (get_job_scratch_file s.scratchRoot rjob.evalHash "output") with
      | some (ScratchObj.outputVal v) => (some (SchedulerMsg.doneJob rjob.id v), dropped)
      | _ => (some (SchedulerMsg.infraError rjob.id "output missing"), dropped)
    | K8sStatus.failed =>
      let dropped := { s with trackedJobs := s.trackedJobs.filter (fun p => p.1 ≠ kjob.uid) }
      match scratch.lookup (get_job_scratch_file s.scratchRoot rjob.evalHash "error") with
      | some (ScratchObj.errorPair kind msg _tb) =>
        (some (SchedulerMsg.appError rjob.id kind msg), dropped)
      | _ => (some (SchedulerMsg.infraError rjob.id "Exception raised by k8s job"), dropped)

/-! ## submit_task and the oneshot command -/

/-- An observable action of `submit_task`: a write to the scratch store or
the backend submission call with its command line. -/
inductive SubmitEvent where
  | scratchWrite (path : String)
  | k8sSubmitCall (command : List String) (image : String) (jobName : String)
deriving DecidableEq

/-- Modelled from the spec: the remote entrypoint command line, in its fixed
argument order. -/
def oneshotCommand (requiredVersion loadModule : String)
    (importPath codeFile : Option String)
    (inputPath outputPath errorPath taskName : String) : List String :=
  ["redun", "--check-version", requiredVersion, "oneshot", loadModule]
    ++ (match importPath with
        | some p => ["--import-path", p]
        | none => [])
    ++ (match codeFile with
        | some c => ["--code", c]
        | none => [])
    ++ ["--input", inputPath, "--output", outputPath, "--error", errorPath, taskName]

/-- Modelled from the spec: `submit_task` — write the serialized call to the
input scratch path, then issue the backend submission whose command is the
oneshot entrypoint invocation with the three scratch URIs derived from the
Execution's eval hash. -/
def submit_task (image scratchRoot nameBase requiredVersion : String)
    (job : RedunJob) (codeFile : Option String) : List SubmitEvent :=
  [SubmitEvent.scratchWrite (get_job_scratch_file scratchRoot job.evalHash "input"),
   SubmitEvent.k8sSubmitCall
     (oneshotCommand requiredVersion job.loadModule job.importPath codeFile
       (get_job_scratch_file scratchRoot job.evalHash "input")
       (get_job_scratch_file scratchRoot job.evalHash "output")
       (get_job_scratch_file scratchRoot job.evalHash "error")
       job.taskName)
     image
     (get_k8s_job_name nameBase job.evalHash)]

/-! ## Helper lemmas -/

theorem lastDashSplit_eq_none (l : List Char) (hnd : ∀ c ∈ l, c ≠ '-') :
    lastDashSplit l = none := by
  induction l with
  | nil => rfl
  | cons c rest ih =>
    have hc : c ≠ '-' := hnd c (List.mem_cons_self c rest)
    have hrest : lastDashSplit rest = none :=
      ih (fun x hx => hnd x (List.mem_cons_of_mem c hx))
    simp [lastDashSplit, hrest, hc]

theorem lastDashSplit_append (l₁ l₂ : List Char) (hnd : ∀ c ∈ l₂, c ≠ '-') :
    lastDashSplit (l₁ ++ '-' :: l₂) = some l₂ := by
  induction l₁ with
  | nil =>
    simp [lastDashSplit, lastDashSplit_eq_none l₂ hnd]
  | cons c rest ih =>
    simp [lastDashSplit, ih]

theorem isWordChar_ne_dash (c : Char) (hw : isWordChar c = true) : c ≠ '-' := by
  intro hc
  subst hc
  revert hw
  decide

theorem splitWordsAux_no_space (cs : List Char) (w : List Char)
    (hns : ∀ c ∈ cs, c ≠ ' ') :
    splitWordsAux cs w =
      if w.reverse ++ cs = [] then [] else [String.mk (w.reverse ++ cs)] := by
  induction cs generalizing w with
  | nil => cases w <;> simp [splitWordsAux]
  | cons c cs ih =>
    have hc : c ≠ ' ' := hns c (List.mem_cons_self c cs)
    have htl : ∀ x ∈ cs, x ≠ ' ' := fun x hx => hns x (List.mem_cons_of_mem c hx)
    rw [splitWordsAux, if_neg hc, ih (c :: w) htl]
    simp [List.append_assoc]

theorem splitWords_single (p : String) (hne : p.data ≠ [])
    (hns : ∀ c ∈ p.data, c ≠ ' ') : splitWords p = [p] := by
  obtain ⟨d⟩ := p
  unfold splitWords
  rw [splitWordsAux_no_space d [] hns]
  simp [hne]

/-! ## Claim theorems -/

/-- C2: for every name base and every valid eval hash (nonempty, word
characters only), `get_k8s_job_name` produces a name starting with the base
and ending with the hash, and `get_hash_from_job_name` applied to that name
returns exactly the original hash — extraction is a left inverse of name
construction. -/
theorem extract_hash_left_inverse (base evalHash : String)
    (hne : evalHash.data ≠ [])
    (hw : evalHash.data.all isWordChar = true) :
    (∃ rest, get_k8s_job_name base evalHash = base ++ rest) ∧
    (∃ front, get_k8s_job_name base evalHash = front ++ evalHash) ∧
    get_hash_from_job_name (get_k8s_job_name base evalHash) = some evalHash := by
  refine ⟨⟨"-" ++ evalHash, String.append_assoc base "-" evalHash⟩,
          ⟨base ++ "-", rfl⟩, ?_⟩
  have hnd : ∀ c ∈ evalHash.data, c ≠ '-' := fun c hc =>
    isWordChar_ne_dash c (List.all_eq_true.mp hw c hc)
  have hdata : (get_k8s_job_name base evalHash).data = base.data ++ '-' :: evalHash.data := by
    simp [get_k8s_job_name, String.data_append]
  unfold get_hash_from_job_name
  rw [hdata, lastDashSplit_append _ _ hnd]
  have hie : evalHash.data.isEmpty = false := by
    cases hd : evalHash.data
    · exact absurd hd hne
    · rfl
  simp only [hie, hw, Bool.not_false, Bool.and_self]
  obtain ⟨d⟩ := evalHash
  rfl

/-- Witness for C2 at the concrete prefix and 40-character hash used by
`test_get_hash_from_job_name`. -/
theorem extract_hash_left_inverse_witness :
    get_hash_from_job_name
        (get_k8s_job_name "my-job-prefix" "c000d7f9b6275c58aff9d5466f6a1174e99195ca") =
      some "c000d7f9b6275c58aff9d5466f6a1174e99195ca" :=
  (extract_hash_left_inverse "my-job-prefix" "c000d7f9b6275c58aff9d5466f6a1174e99195ca"
    (by decide) (by decide)).2.2

/-- C3: a job name with no recognizable embedded hash (in particular any
dashless name) makes `get_hash_from_job_name` return `none` ("no hash")
rather than failing, and reconciliation silently excludes such jobs: on a
backend listing with one hashless-named job and two jobs embedding hashes,
`gather_inflight_jobs` builds a map holding exactly those two hashes. -/
theorem unrelated_jobs_excluded :
    (∀ jobName : String, (∀ c ∈ jobName.data, c ≠ '-') →
        get_hash_from_job_name jobName = none) ∧
    gather_inflight_jobs
        [{ uid := "headnode", name := "liveratlas_spearmancor_automation_headnode",
           status := K8sStatus.running },
         { uid := "preprocess", name := "liveratlas_spearmancor_preprocess-123456789",
           status := K8sStatus.running },
         { uid := "decode", name := "liveratlas_spearmancor_decode-987654321",
           status := K8sStatus.running }] =
      [("123456789", "preprocess"), ("987654321", "decode")] := by
  constructor
  · intro jobName hnd
    unfold get_hash_from_job_name
    rw [lastDashSplit_eq_none jobName.data hnd]
  · decide

/-- Witness for C3's quantified part at the concrete headnode job name of
`test_executor_handles_unrelated_jobs`. -/
theorem unrelated_jobs_excluded_witness :
    get_hash_from_job_name "liveratlas_spearmancor_automation_headnode" = none :=
  unrelated_jobs_excluded.1 "liveratlas_spearmancor_automation_headnode" (by decide)

/-- C9: constructing an executor from a configuration carrying an include
pattern exposes the configured image and scratch base URI on the executor,
and parses `code_package` into its enabled (dict) form whose includes list
is exactly the configured pattern. -/
theorem executor_config_parsed (img scratch p : String)
    (hne : p.data ≠ []) (hns : ∀ c ∈ p.data, c ≠ ' ') :
    (K8SExecutor.fromConfig
        [("image", img), ("s3_scratch", scratch), ("code_includes", p)]).image = img ∧
    (K8SExecutor.fromConfig
        [("image", img), ("s3_scratch", scratch), ("code_includes", p)]).scratchRoot = scratch ∧
    (K8SExecutor.fromConfig
        [("image", img), ("s3_scratch", scratch), ("code_includes", p)]).codePackage =
      CodePackage.enabled [p] := by
  refine ⟨rfl, rfl, ?_⟩
  have hcp : (K8SExecutor.fromConfig
      [("image", img), ("s3_scratch", scratch), ("code_includes", p)]).codePackage =
      parse_code_package_config
        [("image", img), ("s3_scratch", scratch), ("code_includes", p)] := rfl
  have h1 : configLookup [("image", img), ("s3_scratch", scratch), ("code_includes", p)]
      "code_package" "True" = "True" := rfl
  have h2 : configLookup [("image", img), ("s3_scratch", scratch), ("code_includes", p)]
      "code_includes" "**/*.py" = p := rfl
  rw [hcp]
  unfold parse_code_package_config
  rw [h1, if_neg (by decide), h2, splitWords_single p hne hns]

/-- Witness for C9 at the concrete configuration of `test_executor_config`. -/
theorem executor_config_parsed_witness :
    (K8SExecutor.fromConfig
        [("image", "image"), ("s3_scratch", "s3_scratch_prefix"),
         ("code_includes", "*.txt")]).codePackage = CodePackage.enabled ["*.txt"] :=
  (executor_config_parsed "image" "s3_scratch_prefix" "*.txt" (by decide) (by decide)).2.2

/-! Field-preservation lemmas for the executor operations. -/

theorem ensurePackaged_getJobs (s : K8SExecutor) (r : String) :
    (s.ensurePackaged r).getJobsCallCount = s.getJobsCallCount := by
  obtain ⟨img, root, cp, st, gj, pc, sc, cf, pre, ap, tj, sub⟩ := s
  cases cp <;> cases cf <;> rfl

theorem ensurePackaged_submitCount (s : K8SExecutor) (r : String) :
    (s.ensurePackaged r).k8sSubmitCallCount = s.k8sSubmitCallCount := by
  obtain ⟨img, root, cp, st, gj, pc, sc, cf, pre, ap, tj, sub⟩ := s
  cases cp <;> cases cf <;> rfl

theorem ensurePackaged_preexisting (s : K8SExecutor) (r : String) :
    (s.ensurePackaged r).preexistingK8sJobs = s.preexistingK8sJobs := by
  obtain ⟨img, root, cp, st, gj, pc, sc, cf, pre, ap, tj, sub⟩ := s
  cases cp <;> cases cf <;> rfl

theorem ensurePackaged_arrayer (s : K8SExecutor) (r : String) :
    (s.ensurePackaged r).arrayerPending = s.arrayerPending := by
  obtain ⟨img, root, cp, st, gj, pc, sc, cf, pre, ap, tj, sub⟩ := s
  cases cp <;> cases cf <;> rfl

theorem ensurePackaged_tracked (s : K8SExecutor) (r : String) :
    (s.ensurePackaged r).trackedJobs = s.trackedJobs := by
  obtain ⟨img, root, cp, st, gj, pc, sc, cf, pre, ap, tj, sub⟩ := s
  cases cp <;> cases cf <;> rfl

theorem ensurePackaged_scratchRoot (s : K8SExecutor) (r : String) :
    (s.ensurePackaged r).scratchRoot = s.scratchRoot := by
  obtain ⟨img, root, cp, st, gj, pc, sc, cf, pre, ap, tj, sub⟩ := s
  cases cp <;> cases cf <;> rfl

theorem ensurePackaged_image (s : K8SExecutor) (r : String) :
    (s.ensurePackaged r).image = s.image := by
  obtain ⟨img, root, cp, st, gj, pc, sc, cf, pre, ap, tj, sub⟩ := s
  cases cp <;> cases cf <;> rfl

theorem ensurePackaged_submitted (s : K8SExecutor) (r : String) :
    (s.ensurePackaged r).submitted = s.submitted := by
  obtain ⟨img, root, cp, st, gj, pc, sc, cf, pre, ap, tj, sub⟩ := s
  cases cp <;> cases cf <;> rfl

theorem ensurePackaged_cached (s : K8SExecutor) (r c : String)
    (hcf : s.codeFile = some c) : s.ensurePackaged r = s := by
  cases hcp : s.codePackage <;> simp [K8SExecutor.ensurePackaged, hcp, hcf]

theorem ensurePackaged_first (s : K8SExecutor) (r : String) (incl : List String)
    (hcp : s.codePackage = CodePackage.enabled incl) (hcf : s.codeFile = none) :
    s.ensurePackaged r =
      { s with
        codeFile := some r
        packageCodeCallCount := s.packageCodeCallCount + 1 } := by
  simp [K8SExecutor.ensurePackaged, hcp, hcf]

theorem submit_rejoin (s : K8SExecutor) (j : RedunJob) (r uid : String)
    (hl : s.preexistingK8sJobs.lookup j.evalHash = some uid) :
    s.submit j r =
      { s.ensurePackaged r with trackedJobs := s.trackedJobs ++ [(uid, j)] } := by
  have hl1 : (s.ensurePackaged r).preexistingK8sJobs.lookup j.evalHash = some uid := by
    rw [ensurePackaged_preexisting]
    exact hl
  unfold K8SExecutor.submit
  simp [hl1, ensurePackaged_tracked]

theorem submit_enqueue (s : K8SExecutor) (j : RedunJob) (r : String)
    (hl : s.preexistingK8sJobs.lookup j.evalHash = none) :
    s.submit j r =
      { s.ensurePackaged r with arrayerPending := s.arrayerPending ++ [j] } := by
  have hl1 : (s.ensurePackaged r).preexistingK8sJobs.lookup j.evalHash = none := by
    rw [ensurePackaged_preexisting]
    exact hl
  unfold K8SExecutor.submit
  simp [hl1, ensurePackaged_arrayer]

theorem submit_getJobs (s : K8SExecutor) (j : RedunJob) (r : String) :
    (s.submit j r).getJobsCallCount = s.getJobsCallCount := by
  unfold K8SExecutor.submit
  cases hl : (s.ensurePackaged r).preexistingK8sJobs.lookup j.evalHash <;>
    simp [hl, ensurePackaged_getJobs]

theorem submit_codeFile (s : K8SExecutor) (j : RedunJob) (r : String) :
    (s.submit j r).codeFile = (s.ensurePackaged r).codeFile ∧
    (s.submit j r).packageCodeCallCount = (s.ensurePackaged r).packageCodeCallCount := by
  unfold K8SExecutor.submit
  cases hl : (s.ensurePackaged r).preexistingK8sJobs.lookup j.evalHash <;> simp [hl]

theorem start_codePackage (s : K8SExecutor) (bj : List RJob) :
    (s.start bj).codePackage = s.codePackage := by
  unfold K8SExecutor.start
  split <;> rfl

theorem start_codeFile (s : K8SExecutor) (bj : List RJob) :
    (s.start bj).codeFile = s.codeFile := by
  unfold K8SExecutor.start
  split <;> rfl

theorem start_packageCount (s : K8SExecutor) (bj : List RJob) :
    (s.start bj).packageCodeCallCount = s.packageCodeCallCount := by
  unfold K8SExecutor.start
  split <;> rfl

theorem start_fresh (s : K8SExecutor) (bj : List RJob) (hns : s.started = false) :
    s.start bj =
      { s with
        started := true
        getJobsCallCount := s.getJobsCallCount + 1
        preexistingK8sJobs := gather_inflight_jobs bj } := by
  simp [K8SExecutor.start, hns]

theorem submitMany_getJobs (jobs : List RedunJob) (s : K8SExecutor) (r : String) :
    (s.submitMany jobs r).getJobsCallCount = s.getJobsCallCount := by
  induction jobs generalizing s with
  | nil => rfl
  | cons j rest ih =>
    show ((s.submit j r).submitMany rest r).getJobsCallCount = _
    rw [ih, submit_getJobs]

theorem submitMany_packaged (jobs : List RedunJob) (s : K8SExecutor) (r c : String)
    (hcf : s.codeFile = some c) :
    (s.submitMany jobs r).packageCodeCallCount = s.packageCodeCallCount ∧
    (s.submitMany jobs r).codeFile = some c := by
  induction jobs generalizing s with
  | nil => exact ⟨rfl, hcf⟩
  | cons j rest ih =>
    have heq : s.ensurePackaged r = s := ensurePackaged_cached s r c hcf
    have hsub := submit_codeFile s j r
    have hcf1 : (s.submit j r).codeFile = some c := by rw [hsub.1, heq, hcf]
    have hpc1 : (s.submit j r).packageCodeCallCount = s.packageCodeCallCount := by
      rw [hsub.2, heq]
    obtain ⟨ih1, ih2⟩ := ih (s.submit j r) hcf1
    exact ⟨by rw [show (s.submitMany (j :: rest) r) = (s.submit j r).submitMany rest r from rfl,
                  ih1, hpc1], by rw [show (s.submitMany (j :: rest) r) = (s.submit j r).submitMany rest r from rfl]; exact ih2⟩

/-- C4: the backend job listing feeding the Inflight Reconciler is queried
exactly once per executor lifetime — synchronously during `start()` — and
is never re-triggered by submissions: after `start()` followed by any
positive number of `submit()` calls the `get_jobs` call count is still 1. -/
theorem get_jobs_listed_once (cfg : List (String × String)) (backendJobs : List RJob)
    (jobs : List RedunJob) (codeRef : String) (_hne : jobs ≠ []) :
    (((K8SExecutor.fromConfig cfg).start backendJobs).submitMany jobs codeRef).getJobsCallCount
      = 1 := by
  rw [submitMany_getJobs, start_fresh (K8SExecutor.fromConfig cfg) backendJobs rfl]
  rfl

/-- Witness for C4: two submissions after `start()` on the concrete
configuration of `mock_executor` leave the listing call count at 1. -/
theorem get_jobs_listed_once_witness :
    (((K8SExecutor.fromConfig
          [("image", "my-image"), ("s3_scratch", "s3://example-bucket/redun/")]).start
        []).submitMany
      [{ id := "1", taskName := "task1", loadModule := "redun.tests.test_k8s",
         importPath := none, evalHash := "eval_hash", options := TaskOptions.empty },
       { id := "2", taskName := "task1", loadModule := "redun.tests.test_k8s",
         importPath := none, evalHash := "eval_hash", options := TaskOptions.empty }]
      "code").getJobsCallCount = 1 :=
  get_jobs_listed_once
    [("image", "my-image"), ("s3_scratch", "s3://example-bucket/redun/")] []
    [{ id := "1", taskName := "task1", loadModule := "redun.tests.test_k8s",
       importPath := none, evalHash := "eval_hash", options := TaskOptions.empty },
     { id := "2", taskName := "task1", loadModule := "redun.tests.test_k8s",
       importPath := none, evalHash := "eval_hash", options := TaskOptions.empty }]
    "code" (by simp)

/-- C8: with code packaging enabled, the first `submit()` packages the code
exactly once and caches the reference on the executor; every later
`submit()` reuses the cache, so after any number of further submissions the
packaging call count is still 1 and the cached reference unchanged. -/
theorem code_packaged_once (cfg : List (String × String)) (backendJobs : List RJob)
    (j1 : RedunJob) (rest : List RedunJob) (codeRef : String) (incl : List String)
    (hcp : (K8SExecutor.fromConfig cfg).codePackage = CodePackage.enabled incl) :
    (((K8SExecutor.fromConfig cfg).start backendJobs).submit j1 codeRef).packageCodeCallCount
        = 1 ∧
    (((K8SExecutor.fromConfig cfg).start backendJobs).submit j1 codeRef).codeFile
        = some codeRef ∧
    ((((K8SExecutor.fromConfig cfg).start backendJobs).submit j1 codeRef).submitMany rest
        codeRef).packageCodeCallCount = 1 ∧
    ((((K8SExecutor.fromConfig cfg).start backendJobs).submit j1 codeRef).submitMany rest
        codeRef).codeFile = some codeRef := by
  have hcp1 : ((K8SExecutor.fromConfig cfg).start backendJobs).codePackage =
      CodePackage.enabled incl := by rw [start_codePackage]; exact hcp
  have hcf1 : ((K8SExecutor.fromConfig cfg).start backendJobs).codeFile = none := by
    rw [start_codeFile]
    rfl
  have hpc1 : ((K8SExecutor.fromConfig cfg).start backendJobs).packageCodeCallCount = 0 := by
    rw [start_packageCount]
    rfl
  have hfirst := ensurePackaged_first ((K8SExecutor.fromConfig cfg).start backendJobs)
    codeRef incl hcp1 hcf1
  have hsub := submit_codeFile ((K8SExecutor.fromConfig cfg).start backendJobs) j1 codeRef
  have h1 : (((K8SExecutor.fromConfig cfg).start backendJobs).submit j1
      codeRef).packageCodeCallCount = 1 := by
    rw [hsub.2, hfirst]
    show ((K8SExecutor.fromConfig cfg).start backendJobs).packageCodeCallCount + 1 = 1
    rw [hpc1]
  have h2 : (((K8SExecutor.fromConfig cfg).start backendJobs).submit j1
      codeRef).codeFile = some codeRef := by
    rw [hsub.1, hfirst]
  obtain ⟨h3, h4⟩ := submitMany_packaged rest
    (((K8SExecutor.fromConfig cfg).start backendJobs).submit j1 codeRef) codeRef codeRef h2
  exact ⟨h1, h2, by rw [h3, h1], h4⟩

/-- Witness for C8: the `test_code_packaging` scenario (packaging enabled,
two submissions) leaves the packaging call count at 1 with the reference
cached. -/
theorem code_packaged_once_witness :
    ((((K8SExecutor.fromConfig
            [("image", "my-image"), ("s3_scratch", "s3://example-bucket/redun/"),
             ("code_package", "True")]).start []).submit
        { id := "1", taskName := "task1", loadModule := "redun.tests.test_k8s",
          importPath := none, evalHash := "eval_hash", options := TaskOptions.empty }
        "s3://fake-bucket/code.tar.gz").submitMany
      [{ id := "2", taskName := "task1", loadModule := "redun.tests.test_k8s",
         importPath := none, evalHash := "eval_hash", options := TaskOptions.empty }]
      "s3://fake-bucket/code.tar.gz").packageCodeCallCount = 1 :=
  (code_packaged_once
    [("image", "my-image"), ("s3_scratch", "s3://example-bucket/redun/"),
     ("code_package", "True")] []
    { id := "1", taskName := "task1", loadModule := "redun.tests.test_k8s",
      importPath := none, evalHash := "eval_hash", options := TaskOptions.empty }
    [{ id := "2", taskName := "task1", loadModule := "redun.tests.test_k8s",
       importPath := none, evalHash := "eval_hash", options := TaskOptions.empty }]
    "s3://fake-bucket/code.tar.gz" (splitWords "**/*.py") (by decide)).2.2.1

/-- C5: a tracked remote job reported terminal `succeeded`, whose output
scratch object for its eval hash holds a serialized value, has that value
read, deserialized and delivered to the scheduler as the result for the
Execution's id. -/
theorem succeeded_delivers_result (s : K8SExecutor) (scratch : Scratch) (kjob : RJob)
    (job : RedunJob) (v : Int)
    (htrack : s.trackedJobs.lookup kjob.uid = some job)
    (hstatus : kjob.status = K8sStatus.succeeded)
    (hout : scratch.lookup (get_job_scratch_file s.scratchRoot job.evalHash "output") =
      some (ScratchObj.outputVal v)) :
    (process_job_status s scratch kjob).1 = some (SchedulerMsg.doneJob job.id v) := by
  unfold process_job_status
  simp [htrack, hstatus, hout]

/-- Witness for C5: the `test_executor` success path — tracked job with
eval hash `eval_hash`, backend reports `succeeded`, output scratch holds
the serialized 20 — delivers result 20 for the Execution's id. -/
theorem succeeded_delivers_result_witness :
    (process_job_status
        { image := "my-image", scratchRoot := "s3://example-bucket/redun/",
          codePackage := CodePackage.disabled, started := true, getJobsCallCount := 1,
          packageCodeCallCount := 0, k8sSubmitCallCount := 1, codeFile := none,
          preexistingK8sJobs := [], arrayerPending := [],
          trackedJobs := [("k8s-job-id",
            { id := "123", taskName := "task1", loadModule := "redun.tests.test_k8s",
              importPath := none, evalHash := "eval_hash", options := TaskOptions.empty })],
          submitted := [] }
        [("s3://example-bucket/redun/jobs/eval_hash/output", ScratchObj.outputVal 20)]
        { uid := "k8s-job-id", name := "redun-job-eval_hash",
          status := K8sStatus.succeeded }).1 =
      some (SchedulerMsg.doneJob "123" 20) :=
  succeeded_delivers_result _ _ _
    { id := "123", taskName := "task1", loadModule := "redun.tests.test_k8s",
      importPath := none, evalHash := "eval_hash", options := TaskOptions.empty }
    20 (by decide) rfl (by decide)

/-- C6: a tracked remote job reported terminal `failed` whose error scratch
object holds a structured (exception kind, message, traceback) pair makes
the scheduler receive an application error of that exception kind for the
Execution's id — not a synthesized infrastructure failure. -/
theorem failed_delivers_app_error (s : K8SExecutor) (scratch : Scratch) (kjob : RJob)
    (job : RedunJob) (kind msg tb : String)
    (htrack : s.trackedJobs.lookup kjob.uid = some job)
    (hstatus : kjob.status = K8sStatus.failed)
    (herr : scratch.lookup (get_job_scratch_file s.scratchRoot job.evalHash "error") =
      some (ScratchObj.errorPair kind msg tb)) :
    (process_job_status s scratch kjob).1 = some (SchedulerMsg.appError job.id kind msg) ∧
    ∀ m, (process_job_status s scratch kjob).1 ≠ some (SchedulerMsg.infraError job.id m) := by
  have h1 : (process_job_status s scratch kjob).1 =
      some (SchedulerMsg.appError job.id kind msg) := by
    unfold process_job_status
    simp [htrack, hstatus, herr]
  refine ⟨h1, fun m => ?_⟩
  rw [h1]
  simp

/-- Witness for C6: the `test_executor` failure path — backend reports
`failed`, error scratch holds a structured `ValueError("Boom")` pair — the
scheduler receives an application error of kind `ValueError`. -/
theorem failed_delivers_app_error_witness :
    (process_job_status
        { image := "my-image", scratchRoot := "s3://example-bucket/redun/",
          codePackage := CodePackage.disabled, started := true, getJobsCallCount := 1,
          packageCodeCallCount := 0, k8sSubmitCallCount := 1, codeFile := none,
          preexistingK8sJobs := [], arrayerPending := [],
          trackedJobs := [("k8s-job2-id",
            { id := "456", taskName := "task1", loadModule := "redun.tests.test_k8s",
              importPath := none, evalHash := "eval_hash2", options := TaskOptions.empty })],
          submitted := [] }
        [("s3://example-bucket/redun/jobs/eval_hash2/error",
          ScratchObj.errorPair "ValueError" "Boom" "traceback")]
        { uid := "k8s-job2-id", name := "redun-job-eval_hash2",
          status := K8sStatus.failed }).1 =
      some (SchedulerMsg.appError "456" "ValueError" "Boom") :=
  (failed_delivers_app_error _ _ _
    { id := "456", taskName := "task1", loadModule := "redun.tests.test_k8s",
      importPath := none, evalHash := "eval_hash2", options := TaskOptions.empty }
    "ValueError" "Boom" "traceback" (by decide) rfl (by decide)).1

/-- C1: when a submitted Execution's eval hash is a key of the
preexisting-jobs map built by the Inflight Reconciler during `start()`, the
executor performs no new backend submission (the submission-call count
stays 0 and nothing enters the arrayer) and instead monitors the discovered
remote job directly, delivering its result to the scheduler once the
backend reports it terminal. -/
theorem inflight_job_rejoined (cfg : List (String × String)) (backendJobs : List RJob)
    (job : RedunJob) (codeRef uid : String)
    (hpre : (gather_inflight_jobs backendJobs).lookup job.evalHash = some uid) :
    (((K8SExecutor.fromConfig cfg).start backendJobs).submit job codeRef).k8sSubmitCallCount
        = 0 ∧
    (((K8SExecutor.fromConfig cfg).start backendJobs).submit job codeRef).arrayerPending
        = [] ∧
    (((K8SExecutor.fromConfig cfg).start backendJobs).submit job codeRef).trackedJobs
        = [(uid, job)] ∧
    ∀ (scratch : Scratch) (kjob : RJob) (v : Int),
      kjob.uid = uid → kjob.status = K8sStatus.succeeded →
      scratch.lookup (get_job_scratch_file (configLookup cfg "s3_scratch" "")
          job.evalHash "output") = some (ScratchObj.outputVal v) →
      (process_job_status
          (((K8SExecutor.fromConfig cfg).start backendJobs).submit job codeRef)
          scratch kjob).1 = some (SchedulerMsg.doneJob job.id v) := by
  have hstart := start_fresh (K8SExecutor.fromConfig cfg) backendJobs rfl
  have hpre1 : ((K8SExecutor.fromConfig cfg).start backendJobs).preexistingK8sJobs.lookup
      job.evalHash = some uid := by
    rw [hstart]
    exact hpre
  have hsub := submit_rejoin ((K8SExecutor.fromConfig cfg).start backendJobs)
    job codeRef uid hpre1
  have hcount : (((K8SExecutor.fromConfig cfg).start backendJobs).submit job
      codeRef).k8sSubmitCallCount = 0 := by
    rw [hsub]
    show (((K8SExecutor.fromConfig cfg).start backendJobs).ensurePackaged
        codeRef).k8sSubmitCallCount = 0
    rw [ensurePackaged_submitCount, hstart]
    rfl
  have harr : (((K8SExecutor.fromConfig cfg).start backendJobs).submit job
      codeRef).arrayerPending = [] := by
    rw [hsub]
    show (((K8SExecutor.fromConfig cfg).start backendJobs).ensurePackaged
        codeRef).arrayerPending = []
    rw [ensurePackaged_arrayer, hstart]
    rfl
  have htr : (((K8SExecutor.fromConfig cfg).start backendJobs).submit job
      codeRef).trackedJobs = [(uid, job)] := by
    rw [hsub]
    show ((K8SExecutor.fromConfig cfg).start backendJobs).trackedJobs ++ [(uid, job)]
        = [(uid, job)]
    rw [hstart]
    rfl
  have hroot : (((K8SExecutor.fromConfig cfg).start backendJobs).submit job
      codeRef).scratchRoot = configLookup cfg "s3_scratch" "" := by
    rw [hsub]
    show (((K8SExecutor.fromConfig cfg).start backendJobs).ensurePackaged
        codeRef).scratchRoot = configLookup cfg "s3_scratch" ""
    rw [ensurePackaged_scratchRoot, hstart]
    rfl
  refine ⟨hcount, harr, htr, ?_⟩
  intro scratch kjob v hku hks hout
  have htrack : (((K8SExecutor.fromConfig cfg).start backendJobs).submit job
      codeRef).trackedJobs.lookup kjob.uid = some job := by
    rw [hku, htr]
    simp [List.lookup]
  have hout1 : scratch.lookup (get_job_scratch_file
      (((K8SExecutor.fromConfig cfg).start backendJobs).submit job codeRef).scratchRoot
      job.evalHash "output") = some (ScratchObj.outputVal v) := by
    rw [hroot]
    exact hout
  unfold process_job_status
  simp [htrack, hks, hout1]

/-- Witness for C1: the `test_executor_inflight_job` scenario — backend
listing holds `redun-job-eval_hash` with uid 333, the Execution's eval hash
is `eval_hash` — no submission happens and the result 20 written to output
scratch is delivered for the Execution's id. -/
theorem inflight_job_rejoined_witness :
    (((K8SExecutor.fromConfig
          [("image", "my-image"), ("s3_scratch", "s3://example-bucket/redun/")]).start
        [{ uid := "333", name := "redun-job-eval_hash",
           status := K8sStatus.running }]).submit
      { id := "123", taskName := "task1", loadModule := "redun.tests.test_k8s",
        importPath := none, evalHash := "eval_hash", options := TaskOptions.empty }
      "code").k8sSubmitCallCount = 0 ∧
    (process_job_status
        (((K8SExecutor.fromConfig
              [("image", "my-image"), ("s3_scratch", "s3://example-bucket/redun/")]).start
            [{ uid := "333", name := "redun-job-eval_hash",
               status := K8sStatus.running }]).submit
          { id := "123", taskName := "task1", loadModule := "redun.tests.test_k8s",
            importPath := none, evalHash := "eval_hash", options := TaskOptions.empty }
          "code")
        [("s3://example-bucket/redun/jobs/eval_hash/output", ScratchObj.outputVal 20)]
        { uid := "333", name := "redun-job-eval_hash",
          status := K8sStatus.succeeded }).1 =
      some (SchedulerMsg.doneJob "123" 20) := by
  have h := inflight_job_rejoined
    [("image", "my-image"), ("s3_scratch", "s3://example-bucket/redun/")]
    [{ uid := "333", name := "redun-job-eval_hash", status := K8sStatus.running }]
    { id := "123", taskName := "task1", loadModule := "redun.tests.test_k8s",
      importPath := none, evalHash := "eval_hash", options := TaskOptions.empty }
    "code" "333" (by decide)
  exact ⟨h.1, h.2.2.2
    [("s3://example-bucket/redun/jobs/eval_hash/output", ScratchObj.outputVal 20)]
    { uid := "333", name := "redun-job-eval_hash", status := K8sStatus.succeeded }
    20 rfl rfl (by decide)⟩

/-- C10: a submission with no preexisting match is flushed as one backend
submission call carrying the executor's image, the derived job name, and —
absent overrides — the default kwargs vcpus=1, gpus=0, memory=4, retries=1,
role=None, together with a labels list holding exactly the keys
redun_aws_user, redun_execution_id, redun_job_id (the Execution's id),
redun_project and redun_task_name; a memory override replaces only the
memory field and leaves the other defaults and the labels unchanged. -/
theorem submit_call_options (cfg : List (String × String)) (job : RedunJob)
    (codeRef uid : String) :
    ∃ call : SubmitCall,
      ((((K8SExecutor.fromConfig cfg).start []).submit job codeRef).flushPending
          [uid]).submitted = [call] ∧
      call.image = configLookup cfg "image" "" ∧
      call.jobName = get_k8s_job_name redunJobNameBase job.evalHash ∧
      call.k8sLabels =
        [("redun_aws_user", ""), ("redun_execution_id", ""), ("redun_job_id", job.id),
         ("redun_project", ""), ("redun_task_name", job.taskName)] ∧
      (job.options = TaskOptions.empty →
        call.opts = { vcpus := 1, gpus := 0, memory := 4, retries := 1, role := none }) ∧
      (∀ m : Nat, job.options = { TaskOptions.empty with memory := some m } →
        call.opts = { vcpus := 1, gpus := 0, memory := m, retries := 1, role := none }) := by
  have hstart := start_fresh (K8SExecutor.fromConfig cfg) [] rfl
  have hpre1 : ((K8SExecutor.fromConfig cfg).start []).preexistingK8sJobs.lookup
      job.evalHash = none := by
    rw [hstart]
    rfl
  have hsub := submit_enqueue ((K8SExecutor.fromConfig cfg).start []) job codeRef hpre1
  have hsubm : (((K8SExecutor.fromConfig cfg).start []).submit job codeRef).submitted
      = [] := by
    rw [hsub]
    show (((K8SExecutor.fromConfig cfg).start []).ensurePackaged codeRef).submitted = []
    rw [ensurePackaged_submitted, hstart]
    rfl
  have harr2 : (((K8SExecutor.fromConfig cfg).start []).submit job codeRef).arrayerPending
      = [job] := by
    rw [hsub]
    show ((K8SExecutor.fromConfig cfg).start []).arrayerPending ++ [job] = [job]
    rw [hstart]
    rfl
  refine ⟨mkSubmitCall (((K8SExecutor.fromConfig cfg).start []).submit job codeRef) job,
    ?_, ?_, rfl, rfl, ?_, ?_⟩
  · show (((K8SExecutor.fromConfig cfg).start []).submit job codeRef).submitted ++
        ((((K8SExecutor.fromConfig cfg).start []).submit job codeRef).arrayerPending.map
          (mkSubmitCall (((K8SExecutor.fromConfig cfg).start []).submit job codeRef))) = _
    rw [hsubm, harr2]
    rfl
  · show (((K8SExecutor.fromConfig cfg).start []).submit job codeRef).image = _
    rw [hsub]
    show (((K8SExecutor.fromConfig cfg).start []).ensurePackaged codeRef).image = _
    rw [ensurePackaged_image, hstart]
    rfl
  · intro hopts
    show resolveOptions job.options = _
    rw [hopts]
    rfl
  · intro m hopts
    show resolveOptions job.options = _
    rw [hopts]
    rfl

/-- Witness for C10: the second submission of `test_executor` (memory
override 8) yields a single backend call with memory 8 and the other
defaults, labelled with the Execution's id. -/
theorem submit_call_options_witness :
    ∃ call : SubmitCall,
      ((((K8SExecutor.fromConfig
              [("image", "my-image"), ("s3_scratch", "s3://example-bucket/redun/")]).start
            []).submit
          { id := "457", taskName := "task1", loadModule := "redun.tests.test_k8s",
            importPath := none, evalHash := "eval_hash2",
            options := { vcpus := none, gpus := none, memory := some 8, retries := none,
                         role := none } }
          "code").flushPending ["uid1"]).submitted = [call] ∧
      call.opts = { vcpus := 1, gpus := 0, memory := 8, retries := 1, role := none } ∧
      call.k8sLabels =
        [("redun_aws_user", ""), ("redun_execution_id", ""), ("redun_job_id", "457"),
         ("redun_project", ""), ("redun_task_name", "task1")] := by
  obtain ⟨call, h1, h2, h3, h4, h5, h6⟩ := submit_call_options
    [("image", "my-image"), ("s3_scratch", "s3://example-bucket/redun/")]
    { id := "457", taskName := "task1", loadModule := "redun.tests.test_k8s",
      importPath := none, evalHash := "eval_hash2",
      options := { vcpus := none, gpus := none, memory := some 8, retries := none,
                   role := none } }
    "code" "uid1"
  exact ⟨call, h1, h6 8 rfl, h4⟩

/-- C7: `submit_task` writes the input payload to the eval hash's input
scratch URI before the backend submission call, and the submission call
receives the entrypoint command in its fixed order: program,
`--check-version`, `oneshot`, module, optional `--import-path`, `--code`,
then `--input`/`--output`/`--error` with the three scratch URIs derived
from that eval hash, followed by the task name. -/
theorem submit_task_contract (image scratchRoot nameBase ver : String) (job : RedunJob)
    (code : String) :
    (∃ i j : Nat, i < j ∧
      (submit_task image scratchRoot nameBase ver job (some code)).get? i =
        some (SubmitEvent.scratchWrite
          (get_job_scratch_file scratchRoot job.evalHash "input")) ∧
      (∃ cmd nm, (submit_task image scratchRoot nameBase ver job (some code)).get? j =
        some (SubmitEvent.k8sSubmitCall cmd image nm))) ∧
    ∀ cmd img nm,
      SubmitEvent.k8sSubmitCall cmd img nm ∈
          submit_task image scratchRoot nameBase ver job (some code) →
      cmd = ["redun", "--check-version", ver, "oneshot", job.loadModule]
        ++ (match job.importPath with
            | some p => ["--import-path", p]
            | none => [])
        ++ ["--code", code,
            "--input", get_job_scratch_file scratchRoot job.evalHash "input",
            "--output", get_job_scratch_file scratchRoot job.evalHash "output",
            "--error", get_job_scratch_file scratchRoot job.evalHash "error",
            job.taskName] := by
  constructor
  · exact ⟨0, 1, Nat.zero_lt_one, rfl, ⟨_, _, rfl⟩⟩
  · intro cmd img nm hmem
    simp only [submit_task, List.mem_cons, List.mem_singleton] at hmem
    rcases hmem with h | h | h
    · exact absurd h (by simp)
    · have hcmd := (SubmitEvent.k8sSubmitCall.injEq _ _ _ _ _ _).mp h.symm
      rw [← hcmd.1]
      show oneshotCommand ver job.loadModule job.importPath (some code) _ _ _ _ = _
      unfold oneshotCommand
      cases job.importPath <;> rfl
    · cases h

/-- Witness for C7 at the concrete arguments of `test_submit_task`: the
full command line delivered to the backend equals the expected literal
argument list. -/
theorem submit_task_contract_witness :
    (submit_task "my-image" "s3://example-bucket/redun/" "k8s-job" "v1"
        { id := "123", taskName := "task1", loadModule := "redun.tests.test_k8s",
          importPath := none, evalHash := "eval_hash", options := TaskOptions.empty }
        (some "s3://example-bucket/redun/code.tar.gz")).get? 1 =
      some (SubmitEvent.k8sSubmitCall
        ["redun", "--check-version", "v1", "oneshot", "redun.tests.test_k8s",
         "--code", "s3://example-bucket/redun/code.tar.gz",
         "--input", "s3://example-bucket/redun/jobs/eval_hash/input",
         "--output", "s3://example-bucket/redun/jobs/eval_hash/output",
         "--error", "s3://example-bucket/redun/jobs/eval_hash/error",
         "task1"]
        "my-image" "k8s-job-eval_hash") := by
  have h := (submit_task_contract "my-image" "s3://example-bucket/redun/" "k8s-job" "v1"
    { id := "123", taskName := "task1", loadModule := "redun.tests.test_k8s",
      importPath := none, evalHash := "eval_hash", options := TaskOptions.empty }
    "s3://example-bucket/redun/code.tar.gz").2
    (oneshotCommand "v1" "redun.tests.test_k8s" none
      (some "s3://example-bucket/redun/code.tar.gz")
      (get_job_scratch_file "s3://example-bucket/redun/" "eval_hash" "input")
      (get_job_scratch_file "s3://example-bucket/redun/" "eval_hash" "output")
      (get_job_scratch_file "s3://example-bucket/redun/" "eval_hash" "error")
      "task1")
    "my-image" "k8s-job-eval_hash" (by decide)
  have h2 : (submit_task "my-image" "s3://example-bucket/redun/" "k8s-job" "v1"
      { id := "123", taskName := "task1", loadModule := "redun.tests.test_k8s",
        importPath := none, evalHash := "eval_hash", options := TaskOptions.empty }
      (some "s3://example-bucket/redun/code.tar.gz")).get? 1 =
    some (SubmitEvent.k8sSubmitCall
      (oneshotCommand "v1" "redun.tests.test_k8s" none
        (some "s3://example-bucket/redun/code.tar.gz")
        (get_job_scratch_file "s3://example-bucket/redun/" "eval_hash" "input")
        (get_job_scratch_file "s3://example-bucket/redun/" "eval_hash" "output")
        (get_job_scratch_file "s3://example-bucket/redun/" "eval_hash" "error")
        "task1")
      "my-image" (get_k8s_job_name "k8s-job" "eval_hash")) := rfl
  rw [h2, h]
  decide
